import Mathlib

/-!
Shallow embedding of the PlaneWave DeltaT serial-protocol driver
(`src/drivers/auxiliary/planewave_delta.cpp`).

Conventions of the embedding:
* A byte buffer (`char buf[DRIVER_LEN] = {0}`) is a `List Nat` of byte
  values; reading past the filled prefix yields the zero initialization,
  so indexing is `List.getD _ _ 0`.
* `char` is signed, as on the primary x86-64 Linux build target (the
  design document likewise describes the checksum accumulation as summing
  "signed 8-bit" values).  `byteToSigned` is the value of a byte when it
  is read back through a `char` lvalue and promoted to `int`.
* Machine integers are modeled with `Nat`/`Int` plus explicit `% 256`
  (uint8_t) and `% 65536` (uint16_t) where a conversion happens in C.
* The serial port is modeled by a `Transport` oracle giving, for each
  retry attempt `j`, whether `tty_write` succeeds, whether `tty_read`
  succeeds, and the bytes a successful read delivers.
-/

/-- Value of the byte `b` when stored in a (signed) `char` and promoted to
`int`: bytes `0..127` keep their value, bytes `128..255` wrap to
`-128..-1`. -/
def byteToSigned (b : Nat) : Int :=
  if b % 256 < 128 then (b % 256 : Nat) else ((b % 256 : Nat) : Int) - 256

/-- The accumulation loop of `DeltaT::calculateCheckSum`:
`for (uint32_t i = 1; i < len - 1; i++) sum += cmd[i];`
run for `n` remaining iterations starting at index `i`, with the signed
32-bit accumulator modeled as `Int` (the final `& 0xFF` makes 32-bit
wraparound of the accumulator unobservable). -/
def sumLoopAux (cmd : List Nat) : Nat → Nat → Int → Int
  | 0, _, sum => sum
  | n + 1, i, sum => sumLoopAux cmd n (i + 1) (sum + byteToSigned (cmd.getD i 0))

/-- The function `DeltaT::calculateCheckSum(cmd, len)`: sums `cmd[1] .. cmd[len-2]` as
signed chars into a signed accumulator and returns `(-sum) & 0xFF`
(a `uint8_t`, here a `Nat` in `0..255`).  The loop bound `i < len - 1`
with `i` starting at `1` gives `(len - 1) - 1` iterations. -/
def calculateCheckSum (cmd : List Nat) (len : Nat) : Nat :=
  ((-(sumLoopAux cmd (len - 1 - 1) 1 0)) % 256).toNat

/-- The sum, as described by the specification, of bytes `b[1]` through
`b[len-2]` inclusive, each taken as a signed 8-bit value, in a wider
signed accumulator. -/
def checkSumBody (b : List Nat) (len : Nat) : Int :=
  ((List.range (len - 2)).map (fun k => byteToSigned (b.getD (k + 1) 0))).sum

/-- The checksum as the specification words it: the two's-complement of the
sum of bytes from index 1 through `len - 2` inclusive, masked to 8 bits,
`(-sum) & 0xFF`. -/
def checksumSpecification (b : List Nat) (len : Nat) : Nat :=
  ((-(checkSumBody b len)) % 256).toNat

/-- The checksum validation step of `DeltaT::sendCommand`:
`uint8_t chk = calculateCheckSum(res, res_len); if (chk != res[res_len-1])`.
Both comparands are promoted to `int`: `chk` keeps its value `0..255`,
while the trailing buffer byte is read through a signed `char`. -/
def validateChecksum (res : List Nat) (resLen : Nat) : Bool :=
  decide ((calculateCheckSum res resLen : Int) = byteToSigned (res.getD (resLen - 1) 0))

/-- Oracle for the serial line: per retry attempt `j`, does `tty_write`
return `TTY_OK`, does `tty_read` return `TTY_OK`, and which bytes does a
successful read place in the response buffer. -/
structure Transport where
  writeOk : Nat → Bool
  readOk : Nat → Bool
  readData : Nat → List Nat

/-- How the retry loop of `DeltaT::sendCommand` ended: an early
`return false` after a failed `tty_write`, a `break` after attempt `j`
read successfully, or loop exhaustion with `rc != TTY_OK`. -/
inductive LoopOut where
  | writeFail : LoopOut
  | success : Nat → LoopOut
  | exhausted : LoopOut
deriving DecidableEq

/-- Observable I/O trace of the retry loop: number of `tty_write` calls,
number of `usleep(100000)` calls, and how the loop ended. -/
structure LoopTrace where
  writes : Nat
  sleeps : Nat
  out : LoopOut
deriving DecidableEq

/-- The retry loop `for (int j = 0; j < 3; j++) { write; if fail return;
read; if ok break; usleep(100000); }` of `DeltaT::sendCommand`, with `n`
iterations remaining and current loop counter `j`. -/
def loopRun (w r : Nat → Bool) : Nat → Nat → LoopTrace
  | 0, _ => ⟨0, 0, .exhausted⟩
  | n + 1, j =>
    if w j then
      if r j then ⟨1, 0, .success j⟩
      else
        let rest := loopRun w r n (j + 1)
        ⟨rest.writes + 1, rest.sleeps + 1, rest.out⟩
    else ⟨1, 0, .writeFail⟩

/-- Outcome of one `DeltaT::sendCommand` exchange.  The C function returns
`bool`; the distinct failure constructors correspond to its distinct logged
error paths: `"Serial write error"`, `"Serial read error"` (after retry
exhaustion), and `"Invalid checksum!"`. -/
inductive SendResult where
  | ok : List Nat → SendResult
  | writeError : SendResult
  | readError : SendResult
  | checksumError : SendResult
deriving DecidableEq

/-- Whether an exchange outcome is the successful (`return true`) path. -/
def SendResult.isOk : SendResult → Bool
  | .ok _ => true
  | _ => false

/-- Observable behaviour of one `DeltaT::sendCommand` call. -/
structure ExchangeTrace where
  writes : Nat
  sleeps : Nat
  result : SendResult
deriving DecidableEq

/-- The function `DeltaT::sendCommand(cmd, res, cmd_len, res_len)`: run the 3-attempt
write/read retry loop; on a failed write return the write error; after
exhausting the retries return the read error; on a successful read,
recompute the checksum over the received bytes and compare it with the
trailing byte, failing without any further I/O on mismatch.  The written
command bytes `cmd` do not influence the transport oracle. -/
def sendCommand (t : Transport) (cmd : List Nat) (resLen : Nat) : ExchangeTrace :=
  let l := loopRun t.writeOk t.readOk 3 0
  match l.out with
  | .writeFail => ⟨l.writes, l.sleeps, .writeError⟩
  | .exhausted => ⟨l.writes, l.sleeps, .readError⟩
  | .success j =>
    if validateChecksum (t.readData j) resLen then ⟨l.writes, l.sleeps, .ok (t.readData j)⟩
    else ⟨l.writes, l.sleeps, .checksumError⟩

/-- Replace the start-of-message byte (index 0) of a successful response,
leaving failures unchanged. -/
def replaceByte0 (v : Nat) : SendResult → SendResult
  | .ok d => .ok (d.set 0 v)
  | r => r

/-- The 6-byte query frame both `DeltaT::Handshake` and
`DeltaT::initializeHeaters` build:
`[DRIVER_SOM, 0x03, DEVICE_PC, DEVICE_DELTA, code, checksum]` where the
checksum is `calculateCheckSum(cmd, 6)` over the first five bytes (the
constants live in the driver header and are parameters here). -/
def queryFrame (som pc delta code : Nat) : List Nat :=
  [som, 3, pc, delta, code, calculateCheckSum [som, 3, pc, delta, code] 6]

/-- The response length `DeltaT::Handshake` requests from `sendCommand`:
the literal `10` in `sendCommand(cmd, res, 6, 10)`. -/
def handshakeResLen : Nat := 10

/-- The version-string construction of `DeltaT::Handshake`:
`uint16_t bld = res[7] << 8 | res[8];` on signed chars promoted to `int`
(the shift is modeled as `* 256`, its two's-complement value), truncated
to 16 bits by the `uint16_t` assignment, then
`std::to_string(res[5]) + "." + std::to_string(res[6]) + " (" +
std::to_string(bld) + ")"`. -/
def buildVersionString (res : List Nat) : String :=
  let bld : Nat :=
    ((Int.lor (byteToSigned (res.getD 7 0) * 256) (byteToSigned (res.getD 8 0))) % 65536).toNat
  toString (byteToSigned (res.getD 5 0)) ++ "." ++ toString (byteToSigned (res.getD 6 0)) ++
    " (" ++ toString bld ++ ")"

/-- The function `DeltaT::Handshake`: send the `CMD_GET_VERSION` query frame, requesting
a 10-byte response; on a successful exchange parse the version string from
the response (stored into the INFO text property), else fail. -/
def Handshake (som pc delta verCode : Nat) (t : Transport) : Option String :=
  match (sendCommand t (queryFrame som pc delta verCode) handshakeResLen).result with
  | .ok res => some (buildVersionString res)
  | _ => none

/-- One heater on/off switch pair as filled by `initializeHeaters`:
`IUFillSwitch(HEATER_ON, ISS_OFF)` and `IUFillSwitch(HEATER_OFF, ISS_ON)`
for channel `index`. -/
structure HeaterControl where
  index : Nat
  onState : Bool
  offState : Bool
deriving DecidableEq

/-- One INDI number definition: `IUFillNumber(_, _, _, _, min, max, step,
value)`.  The C `double` literals involved (`0.1, 60, 1, 1, 100, 5`) are
only stored, never computed with, so they are modeled as the rationals the
literals denote. -/
structure NumberDef where
  min : ℚ
  max : ℚ
  step : ℚ
  value : ℚ
deriving DecidableEq

/-- One heater parameter pair as filled by `initializeHeaters`:
`PARAM_PERIOD` and `PARAM_DUTY` for channel `index`. -/
structure HeaterParams where
  index : Nat
  period : NumberDef
  duty : NumberDef
deriving DecidableEq

/-- The heater control entry `initializeHeaters` pushes for channel `i`:
HEATER_ON starts `ISS_OFF`, HEATER_OFF starts `ISS_ON`. -/
def newHeaterControl (i : Nat) : HeaterControl := ⟨i, false, true⟩

/-- The heater parameter entry `initializeHeaters` pushes for channel `i`:
`IUFillNumber("PARAM_PERIOD", "%.1f", 0.1, 60, 1, 1)` and
`IUFillNumber("PARAM_DUTY", "%.f", 1, 100, 5, 1)`. -/
def newHeaterParams (i : Nat) : HeaterParams := ⟨i, ⟨1/10, 60, 1, 1⟩, ⟨1, 100, 5, 1⟩⟩

/-- The driver members mutated by heater discovery: the
`HeaterControlSP` and `HeaterParamNP` vectors (the `ISwitch`/`INumber`
element vectors carry the same per-channel data and are not duplicated
here). -/
structure SessionState where
  heaterControls : List HeaterControl
  heaterParams : List HeaterParams
deriving DecidableEq

/-- The function `DeltaT::initializeHeaters`: send the `COH_NUMHEATERS` query frame with
a 6-byte expected response; on failure return `false` without touching the
vectors; on success read `uint8_t nHeaters = res[4]` and `push_back` one
control entry and one parameter entry per channel `0..nHeaters-1` onto the
existing vectors (the source never clears them). -/
def initializeHeaters (som pc delta countCode : Nat) (t : Transport) (s : SessionState) :
    SessionState × Bool :=
  match (sendCommand t (queryFrame som pc delta countCode) 6).result with
  | .ok res =>
    let n := res.getD 4 0 % 256
    (⟨s.heaterControls ++ (List.range n).map newHeaterControl,
      s.heaterParams ++ (List.range n).map newHeaterParams⟩, true)
  | _ => (s, false)

/-- The `isConnected()` branch of `DeltaT::updateProperties`: run
`initializeHeaters` (appending to the member vectors) and define the
resulting properties; only the member vectors are modeled. -/
def updatePropertiesConnected (som pc delta countCode : Nat) (t : Transport)
    (s : SessionState) : SessionState :=
  (initializeHeaters som pc delta countCode t s).1

/-- The disconnected branch of `DeltaT::updateProperties`: it calls
`deleteProperty` on each heater property (a host-framework call) but never
clears the `HeaterControlSP`/`HeaterParamNP` member vectors, so the
session state is unchanged. -/
def updatePropertiesDisconnected (s : SessionState) : SessionState := s

/-- The function `DeltaT::forceReboot`: the body is the single statement
`return false;` — the pair records the list of frames it writes (none)
and its return value. -/
def forceReboot : List (List Nat) × Bool := ([], false)

/-- The function `DeltaT::forceReset`: the body is the single statement
`return false;` — the pair records the list of frames it writes (none)
and its return value. -/
def forceReset : List (List Nat) × Bool := ([], false)

/-- A transport whose reads always time out. -/
def tAllFail : Transport := ⟨fun _ => true, fun _ => false, fun _ => []⟩

/-- A transport that times out on the first read and succeeds on the
second, delivering a 6-byte frame with a correct sub-0x80 checksum. -/
def tSecondTry : Transport :=
  ⟨fun _ => true, fun j => j == 1, fun _ => [0, 200, 0, 0, 3, 53]⟩

/-- A transport delivering a frame whose trailing byte does not match the
recomputed checksum. -/
def tBadChecksum : Transport := ⟨fun _ => true, fun _ => true, fun _ => [0, 0, 0, 0, 0, 1]⟩

/-- A transport answering the heater-count query with a valid 6-byte frame
reporting 3 channels at offset 4. -/
def tCount3 : Transport := ⟨fun _ => true, fun _ => true, fun _ => [0, 200, 0, 0, 3, 53]⟩

/-- A transport answering the version query with a valid 10-byte frame
carrying major 3, minor 2, build bytes 0x01 0x2C at offsets 5..8. -/
def tVersion : Transport :=
  ⟨fun _ => true, fun _ => true, fun _ => [0, 200, 0, 0, 0, 3, 2, 1, 44, 6]⟩

/-- A transport delivering a frame whose trailing byte equals the computed
checksum, with that checksum value being `0xFF` (at or above `0x80`). -/
def tBadFrame255 : Transport := ⟨fun _ => true, fun _ => true, fun _ => [0, 1, 0, 255]⟩

/-- The session state of a freshly constructed driver: both heater vectors
empty. -/
def emptySession : SessionState := ⟨[], []⟩

/-! ## Helper lemmas -/

theorem byteToSigned_emod (b : Nat) : byteToSigned b % 256 = (b : Int) % 256 := by
  unfold byteToSigned
  split <;> omega

theorem getD_set_of_ne {α : Type} (l : List α) (v : α) {i j : Nat} (h : i ≠ j) (d : α) :
    (l.set i v).getD j d = l.getD j d := by
  rw [List.getD_eq_getElem?_getD, List.getD_eq_getElem?_getD, List.getElem?_set_ne h]

theorem getD_set_self {α : Type} (l : List α) (v : α) {i : Nat} (h : i < l.length) (d : α) :
    (l.set i v).getD i d = v := by
  rw [List.getD_eq_getElem?_getD, List.getElem?_set_eq_of_lt _ h, Option.getD_some]

theorem sumLoopAux_eq (cmd : List Nat) :
    ∀ (n i : Nat) (s : Int),
      sumLoopAux cmd n i s =
        s + ((List.range n).map (fun k => byteToSigned (cmd.getD (i + k) 0))).sum := by
  intro n
  induction n with
  | zero => intro i s; simp [sumLoopAux]
  | succ n ih =>
    intro i s
    have hstep : sumLoopAux cmd (n + 1) i s
        = sumLoopAux cmd n (i + 1) (s + byteToSigned (cmd.getD i 0)) := rfl
    rw [hstep, ih]
    rw [List.range_succ_eq_map]
    simp only [List.map_cons, List.sum_cons, List.map_map]
    have hm : (List.range n).map ((fun k => byteToSigned (cmd.getD (i + k) 0)) ∘ Nat.succ)
        = (List.range n).map (fun k => byteToSigned (cmd.getD ((i + 1) + k) 0)) := by
      apply List.map_congr_left
      intro a _
      simp only [Function.comp_apply]
      rw [show i + Nat.succ a = (i + 1) + a from by omega]
    rw [hm]
    have hz : i + 0 = i := by omega
    rw [hz]
    ring

theorem calculateCheckSum_as_body (b : List Nat) (len : Nat) :
    calculateCheckSum b len = ((-(checkSumBody b len)) % 256).toNat := by
  unfold calculateCheckSum checkSumBody
  rw [sumLoopAux_eq]
  have h1 : len - 1 - 1 = len - 2 := by omega
  rw [h1]
  have h2 : (List.range (len - 2)).map (fun k => byteToSigned (b.getD (1 + k) 0))
      = (List.range (len - 2)).map (fun k => byteToSigned (b.getD (k + 1) 0)) := by
    apply List.map_congr_left
    intro a _
    rw [show 1 + a = a + 1 from by omega]
  rw [h2, zero_add]

theorem checkSumBody_congr {b c : List Nat} (len : Nat)
    (h : ∀ i, 1 ≤ i → i ≤ len - 2 → b.getD i 0 = c.getD i 0) :
    checkSumBody b len = checkSumBody c len := by
  unfold checkSumBody
  congr 1
  apply List.map_congr_left
  intro k hk
  rw [List.mem_range] at hk
  rw [h (k + 1) (by omega) (by omega)]

theorem validateChecksum_congr {b c : List Nat} (len : Nat) (h2 : 2 ≤ len)
    (h : ∀ i, 1 ≤ i → i < len → b.getD i 0 = c.getD i 0) :
    validateChecksum b len = validateChecksum c len := by
  unfold validateChecksum
  rw [calculateCheckSum_as_body, calculateCheckSum_as_body,
    checkSumBody_congr len (fun i hi1 hi2 => h i hi1 (by omega)),
    h (len - 1) (by omega) (by omega)]

theorem range_map_sum_eq (f : Nat → Int) (n : Nat) :
    ((List.range n).map f).sum = ∑ k ∈ Finset.range n, f k := by
  induction n with
  | zero => simp
  | succ n ih =>
    rw [List.range_succ, List.map_append, List.sum_append, Finset.sum_range_succ, ih]
    simp

theorem checkSumBody_set (b : List Nat) (len p v : Nat)
    (h1 : 1 ≤ p) (h2 : p ≤ len - 2) (h3 : p < b.length) :
    checkSumBody (b.set p v) len =
      checkSumBody b len + (byteToSigned v - byteToSigned (b.getD p 0)) := by
  unfold checkSumBody
  rw [range_map_sum_eq, range_map_sum_eq]
  have hpt : ∀ k ∈ Finset.range (len - 2),
      byteToSigned ((b.set p v).getD (k + 1) 0)
        = byteToSigned (b.getD (k + 1) 0)
          + (if k = p - 1 then byteToSigned v - byteToSigned (b.getD p 0) else 0) := by
    intro k _
    by_cases hkp : k = p - 1
    · subst hkp
      rw [show p - 1 + 1 = p from by omega, getD_set_self b v h3, if_pos rfl]
      ring
    · rw [getD_set_of_ne b v (show p ≠ k + 1 from by omega), if_neg hkp]
      ring
  rw [Finset.sum_congr rfl hpt, Finset.sum_add_distrib,
    Finset.sum_ite_eq' (Finset.range (len - 2)) (p - 1)
      (fun _ => byteToSigned v - byteToSigned (b.getD p 0)),
    if_pos (Finset.mem_range.mpr (by omega))]

theorem checksum_emod_toNat_ne {S d : Int} (h : d % 256 ≠ 0) :
    ((-(S + d)) % 256).toNat ≠ ((-S) % 256).toNat := by
  intro heq
  have e1 : 0 ≤ (-(S + d)) % 256 := Int.emod_nonneg _ (by norm_num)
  have e2 : 0 ≤ (-S) % 256 := Int.emod_nonneg _ (by norm_num)
  have heq2 : (-(S + d)) % 256 = (-S) % 256 := by omega
  have hsub : ((-(S + d)) - (-S)) % 256 = 0 := by
    rw [Int.sub_emod, heq2]
    simp
  rw [show (-(S + d)) - (-S) = -d from by ring] at hsub
  have hdvd : (256 : Int) ∣ d := dvd_neg.mp (Int.dvd_of_emod_eq_zero hsub)
  exact h (Int.emod_eq_zero_of_dvd hdvd)

theorem getD_append_map_range {α : Type} (l : List α) (f : Nat → α) (N k : Nat)
    (hk : k < N) (d : α) :
    (l ++ (List.range N).map f).getD (l.length + k) d = f k := by
  rw [List.getD_eq_getElem?_getD, List.getElem?_append_right (by omega),
    Nat.add_sub_cancel_left, List.getElem?_map, List.getElem?_range hk]
  simp

/-! ## Claim theorems -/

/-- Claim C1: for every byte sequence `b` and length `len ≥ 2`,
`calculateCheckSum b len` returns the two's-complement checksum of bytes
`b[1]` through `b[len-2]` inclusive — the bytes accumulated as signed
8-bit values into a wider signed accumulator, with result `(-sum) & 0xFF`
— and the start marker `b[0]` and the checksum position `b[len-1]`
contribute nothing to the result. -/
theorem calculateCheckSum_twos_complement (b : List Nat) (len x : Nat) (h : 2 ≤ len) :
    calculateCheckSum b len = checksumSpecification b len ∧
    calculateCheckSum (b.set 0 x) len = calculateCheckSum b len ∧
    calculateCheckSum (b.set (len - 1) x) len = calculateCheckSum b len := by
  refine ⟨calculateCheckSum_as_body b len, ?_, ?_⟩
  · rw [calculateCheckSum_as_body, calculateCheckSum_as_body,
      checkSumBody_congr len
        (fun i hi1 _ => getD_set_of_ne b x (show (0 : Nat) ≠ i from by omega) 0)]
  · rw [calculateCheckSum_as_body, calculateCheckSum_as_body,
      checkSumBody_congr len
        (fun i _ hi2 => getD_set_of_ne b x (show len - 1 ≠ i from by omega) 0)]

/-- Witness for C1 at the concrete frame `[7, 1, 2, 9]` with `len = 4`
and replacement byte `200`. -/
theorem calculateCheckSum_twos_complement_witness :
    2 ≤ 4 ∧
      (calculateCheckSum [7, 1, 2, 9] 4 = checksumSpecification [7, 1, 2, 9] 4 ∧
        calculateCheckSum ([7, 1, 2, 9].set 0 200) 4 = calculateCheckSum [7, 1, 2, 9] 4 ∧
        calculateCheckSum ([7, 1, 2, 9].set (4 - 1) 200) 4 = calculateCheckSum [7, 1, 2, 9] 4) :=
  ⟨by decide, calculateCheckSum_twos_complement [7, 1, 2, 9] 4 200 (by decide)⟩

/-- Claim C2 (code bug): the response frame `[0x00, 0x01, 0x00, 0xFF]`
carries a correct trailing checksum byte — `calculateCheckSum` over it
yields `0xFF`, equal to its last byte — yet the validation step of
`sendCommand` rejects it, because the `uint8_t` checksum (promoted to
`int` 255) is compared with the trailing byte read through a signed
`char` (promoted to `int` -1); the exchange therefore fails on the
"Invalid checksum!" path instead of succeeding. -/
theorem sendCommand_rejects_correct_checksum :
    calculateCheckSum [0, 1, 0, 255] 4 = 255 ∧
    [0, 1, 0, 255].getD 3 0 = 255 ∧
    validateChecksum [0, 1, 0, 255] 4 = false ∧
    (sendCommand tBadFrame255 [] 4).result = .checksumError := by decide

/-- Claim C3 counterexample: with a transport whose reads always time out,
`sendCommand` performs 3 write attempts but sleeps 100ms three times —
once after every failed read, including the last — not the 2 sleeps
(one only "between consecutive attempts") the claim states. -/
theorem sendCommand_sleeps_after_last_attempt :
    sendCommand tAllFail [] 6 = ⟨3, 3, .readError⟩ ∧
    (sendCommand tAllFail [] 6).sleeps ≠ 2 := by decide

/-- Claim C3 (amended): if every read attempt fails, exactly 3 write
attempts are performed with a 100ms sleep after each failed read —
including the last, so 3 sleeps in total — and the exchange fails with
the serial-read (IoError) outcome; if the read succeeds on the 2nd
attempt, exactly 2 write attempts and 1 sleep are performed and the
exchange proceeds to checksum validation. -/
theorem sendCommand_retry_bounds (t u : Transport) (cmd cmd2 : List Nat) (len len2 : Nat)
    (hw : ∀ j, t.writeOk j = true) (hr : ∀ j, t.readOk j = false)
    (huw0 : u.writeOk 0 = true) (huw1 : u.writeOk 1 = true)
    (hur0 : u.readOk 0 = false) (hur1 : u.readOk 1 = true) :
    sendCommand t cmd len = ⟨3, 3, .readError⟩ ∧
    (sendCommand u cmd2 len2).writes = 2 ∧
    (sendCommand u cmd2 len2).sleeps = 1 ∧
    (sendCommand u cmd2 len2).result =
      (if validateChecksum (u.readData 1) len2 then .ok (u.readData 1) else .checksumError) := by
  refine ⟨?_, ?_⟩
  · simp [sendCommand, loopRun, hw 0, hw 1, hw 2, hr 0, hr 1, hr 2]
  · simp only [sendCommand, loopRun, huw0, huw1, hur0, hur1, if_true, if_false,
      Bool.false_eq_true, ite_false, ite_true]
    split <;> simp_all

/-- Witness for C3 with the all-timeouts transport and the
succeeds-on-second-attempt transport. -/
theorem sendCommand_retry_bounds_witness :
    sendCommand tAllFail [] 6 = ⟨3, 3, .readError⟩ ∧
    (sendCommand tSecondTry [] 6).writes = 2 ∧
    (sendCommand tSecondTry [] 6).sleeps = 1 ∧
    (sendCommand tSecondTry [] 6).result =
      (if validateChecksum (tSecondTry.readData 1) 6 then .ok (tSecondTry.readData 1)
       else .checksumError) :=
  sendCommand_retry_bounds tAllFail tSecondTry [] [] 6 6
    (fun _ => rfl) (fun _ => rfl) rfl rfl rfl rfl

/-- Claim C4: whenever the read succeeds on attempt `j` but the recomputed
checksum does not match the trailing response byte, `sendCommand` fails
immediately on the checksum-mismatch (ProtocolError) path — an outcome
distinct from the write/read (IoError) outcomes — with no further write,
read or sleep: the trace is exactly `j + 1` writes and `j` sleeps, and the
single checksum test happens after the retry loop. -/
theorem sendCommand_checksum_mismatch_aborts (t : Transport) (cmd : List Nat) (len j : Nat)
    (hj : j < 3)
    (hw : ∀ i, i ≤ j → t.writeOk i = true)
    (hr : ∀ i, i < j → t.readOk i = false)
    (hrj : t.readOk j = true)
    (hbad : validateChecksum (t.readData j) len = false) :
    sendCommand t cmd len = ⟨j + 1, j, .checksumError⟩ ∧
    SendResult.checksumError ≠ SendResult.readError ∧
    SendResult.checksumError ≠ SendResult.writeError := by
  refine ⟨?_, by decide, by decide⟩
  interval_cases j
  · simp [sendCommand, loopRun, hw 0 (by omega), hrj, hbad]
  · simp [sendCommand, loopRun, hw 0 (by omega), hw 1 (by omega), hr 0 (by omega), hrj, hbad]
  · simp [sendCommand, loopRun, hw 0 (by omega), hw 1 (by omega), hw 2 (by omega),
      hr 0 (by omega), hr 1 (by omega), hrj, hbad]

/-- Witness for C4: a first-attempt response whose trailing byte (1) does
not match its computed checksum (0) aborts the exchange after a single
write with the checksum-mismatch outcome. -/
theorem sendCommand_checksum_mismatch_aborts_witness :
    sendCommand tBadChecksum [] 6 = ⟨0 + 1, 0, .checksumError⟩ ∧
    SendResult.checksumError ≠ SendResult.readError ∧
    SendResult.checksumError ≠ SendResult.writeError :=
  sendCommand_checksum_mismatch_aborts tBadChecksum [] 6 0 (by decide)
    (fun _ _ => rfl) (fun _ hi => absurd hi (by omega)) rfl (by decide)

/-- Claim C5: on a successful channel-count exchange whose response
carries value `N` at offset 4, `initializeHeaters` creates exactly `N`
heater control entries and exactly `N` heater parameter entries, in index
order `0..N-1`, each defaulting to HEATER_OFF selected (enabled = false),
period value 1 with range 0.1–60 and step 1, duty value 1 with range
1–100 and step 5, and returns success; if the count exchange fails it
returns failure having created no entries. -/
theorem initializeHeaters_discovery
    (a b c d : Nat) (t : Transport) (s : SessionState) (res : List Nat)
    (k : Nat) (dC : HeaterControl) (dP : HeaterParams)
    (a2 b2 c2 d2 : Nat) (u : Transport) (s2 : SessionState)
    (hok : (sendCommand t (queryFrame a b c d) 6).result = .ok res)
    (hk : k < res.getD 4 0 % 256)
    (hfail : ((sendCommand u (queryFrame a2 b2 c2 d2) 6).result).isOk = false) :
    (initializeHeaters a b c d t s).2 = true ∧
    (initializeHeaters a b c d t s).1.heaterControls.length
      = s.heaterControls.length + res.getD 4 0 % 256 ∧
    (initializeHeaters a b c d t s).1.heaterParams.length
      = s.heaterParams.length + res.getD 4 0 % 256 ∧
    (initializeHeaters a b c d t s).1.heaterControls.getD
        (s.heaterControls.length + k) dC = ⟨k, false, true⟩ ∧
    (initializeHeaters a b c d t s).1.heaterParams.getD
        (s.heaterParams.length + k) dP = ⟨k, ⟨1/10, 60, 1, 1⟩, ⟨1, 100, 5, 1⟩⟩ ∧
    initializeHeaters a2 b2 c2 d2 u s2 = (s2, false) := by
  have hmain : initializeHeaters a b c d t s
      = (⟨s.heaterControls ++ (List.range (res.getD 4 0 % 256)).map newHeaterControl,
          s.heaterParams ++ (List.range (res.getD 4 0 % 256)).map newHeaterParams⟩, true) := by
    unfold initializeHeaters
    rw [hok]
  have hfail2 : initializeHeaters a2 b2 c2 d2 u s2 = (s2, false) := by
    unfold initializeHeaters
    cases hres : (sendCommand u (queryFrame a2 b2 c2 d2) 6).result with
    | ok r => rw [hres] at hfail; simp [SendResult.isOk] at hfail
    | writeError => rfl
    | readError => rfl
    | checksumError => rfl
  refine ⟨by rw [hmain], by rw [hmain]; simp, by rw [hmain]; simp, ?_, ?_, hfail2⟩
  · rw [hmain]
    exact getD_append_map_range s.heaterControls newHeaterControl _ k hk dC
  · rw [hmain]
    exact getD_append_map_range s.heaterParams newHeaterParams _ k hk dP

/-- Witness for C5: a count-3 response creates 3 entries with entry 1
carrying the defaults; the all-timeouts transport leaves the session
unchanged with a failure. -/
theorem initializeHeaters_discovery_witness :
    (initializeHeaters 0 0 0 0 tCount3 emptySession).2 = true ∧
    (initializeHeaters 0 0 0 0 tCount3 emptySession).1.heaterControls.length
      = emptySession.heaterControls.length + [0, 200, 0, 0, 3, 53].getD 4 0 % 256 ∧
    (initializeHeaters 0 0 0 0 tCount3 emptySession).1.heaterParams.length
      = emptySession.heaterParams.length + [0, 200, 0, 0, 3, 53].getD 4 0 % 256 ∧
    (initializeHeaters 0 0 0 0 tCount3 emptySession).1.heaterControls.getD
        (emptySession.heaterControls.length + 1) ⟨9, false, false⟩ = ⟨1, false, true⟩ ∧
    (initializeHeaters 0 0 0 0 tCount3 emptySession).1.heaterParams.getD
        (emptySession.heaterParams.length + 1) ⟨9, ⟨0, 0, 0, 0⟩, ⟨0, 0, 0, 0⟩⟩
      = ⟨1, ⟨1/10, 60, 1, 1⟩, ⟨1, 100, 5, 1⟩⟩ ∧
    initializeHeaters 0 0 0 0 tAllFail emptySession = (emptySession, false) :=
  initializeHeaters_discovery 0 0 0 0 tCount3 emptySession [0, 200, 0, 0, 3, 53] 1
    ⟨9, false, false⟩ ⟨9, ⟨0, 0, 0, 0⟩, ⟨0, 0, 0, 0⟩⟩ 0 0 0 0 tAllFail emptySession
    (by decide) (by decide) (by decide)

/-- Claim C6 counterexample: `Handshake` does not expect a fixed 6-byte
response — the response length it passes to `sendCommand` is 10 (and its
parse reads offsets 7, 8 and validates offset 9, which do not exist in a
6-byte response). -/
theorem Handshake_expects_ten_byte_response :
    handshakeResLen = 10 ∧ handshakeResLen ≠ 6 := by decide

/-- Claim C6 (amended): `Handshake` sends the get-version query frame and
expects a fixed 10-byte response, parsing the firmware version as
"major.minor (build)" from offsets 5..8; in particular a valid response
whose bytes at offsets 5..8 are 3, 2, 0x01, 0x2C parses to the version
string "3.2 (300)". -/
theorem Handshake_parses_version_string :
    Handshake 0 0 0 0 tVersion = some "3.2 (300)" ∧ handshakeResLen = 10 :=
  ⟨by decide, rfl⟩

/-- Claim C7 (code bug): after connect (count 3), disconnect, reconnect
(count 3), the heater control and parameter vectors hold 6 entries — the
sum over the two discovery passes — not the most recently reported count
of 3: `updateProperties` deletes the host-side properties on disconnect
but never clears the member vectors, and `initializeHeaters` appends. -/
theorem heaterEntries_accumulate_across_reconnect :
    (updatePropertiesConnected 0 0 0 0 tCount3
        (updatePropertiesDisconnected
          (updatePropertiesConnected 0 0 0 0 tCount3 emptySession))).heaterControls.length = 6 ∧
    (updatePropertiesConnected 0 0 0 0 tCount3
        (updatePropertiesDisconnected
          (updatePropertiesConnected 0 0 0 0 tCount3 emptySession))).heaterParams.length = 6 ∧
    (updatePropertiesConnected 0 0 0 0 tCount3
        (updatePropertiesDisconnected
          (updatePropertiesConnected 0 0 0 0 tCount3 emptySession))).heaterControls.length
      ≠ 3 := by decide

/-- Claim C8: mutating any single payload byte (position 5..len-2) of a
frame that passes validation, to any different byte value, without
recomputing the checksum, makes the validation step of `sendCommand`
return false, so the mutated frame is rejected. -/
theorem validateChecksum_detects_payload_mutation (b : List Nat) (len p v : Nat)
    (hlen : len ≤ b.length) (hp5 : 5 ≤ p) (hp : p ≤ len - 2)
    (hv : v % 256 ≠ b.getD p 0 % 256)
    (hvalid : validateChecksum b len = true) :
    validateChecksum (b.set p v) len = false := by
  have hlen7 : 7 ≤ len := by omega
  have hpb : p < b.length := by omega
  rw [validateChecksum, decide_eq_true_eq] at hvalid
  rw [validateChecksum, decide_eq_false_iff_not,
    getD_set_of_ne b v (show p ≠ len - 1 from by omega)]
  intro heq
  have hchk : (calculateCheckSum (b.set p v) len : Int) = (calculateCheckSum b len : Int) :=
    heq.trans hvalid.symm
  have hNat : calculateCheckSum (b.set p v) len = calculateCheckSum b len := by
    exact_mod_cast hchk
  rw [calculateCheckSum_as_body, calculateCheckSum_as_body,
    checkSumBody_set b len p v (by omega) hp hpb] at hNat
  have hd : (byteToSigned v - byteToSigned (b.getD p 0)) % 256 ≠ 0 := by
    intro h0
    have h1 : ((v : Int) - (b.getD p 0 : Int)) % 256 = 0 := by
      rw [Int.sub_emod, ← byteToSigned_emod v, ← byteToSigned_emod (b.getD p 0), ← Int.sub_emod]
      exact h0
    omega
  exact checksum_emod_toNat_ne hd hNat

/-- Witness for C8: the valid frame `[0, 200, 0, 0, 0, 3, 53]` with its
payload byte at position 5 changed from 3 to 4 fails validation. -/
theorem validateChecksum_detects_payload_mutation_witness :
    validateChecksum [0, 200, 0, 0, 0, 3, 53] 7 = true ∧
    validateChecksum ([0, 200, 0, 0, 0, 3, 53].set 5 4) 7 = false :=
  ⟨by decide,
    validateChecksum_detects_payload_mutation [0, 200, 0, 0, 0, 3, 53] 7 5 4
      (by decide) (by decide) (by decide) (by decide) (by decide)⟩

/-- Claim C9 counterexample: `forceReboot` and `forceReset` do not send
any command frame — their bodies write no bytes and they return failure
unconditionally. -/
theorem forceOps_send_nothing :
    forceReboot.1 = [] ∧ forceReset.1 = [] ∧
    forceReboot.2 = false ∧ forceReset.2 = false := by decide

/-- Claim C9 (amended): `forceReset` and `forceReboot` are unimplemented
placeholders: each sends no frame and returns failure unconditionally, so
no success path (and hence no state change) exists. -/
theorem forceOps_are_stubs :
    forceReboot = ([], false) ∧ forceReset = ([], false) := by decide

/-- Claim C10: the exchange never inspects the start-marker byte of the
response: replacing byte 0 of every delivered response by an arbitrary
value leaves the write count, the sleep count and the outcome of
`sendCommand` unchanged, with a successful result differing only in that
replaced byte (corruption of the start marker is undetectable). -/
theorem sendCommand_ignores_start_marker (t : Transport) (cmd : List Nat) (v len : Nat)
    (h2 : 2 ≤ len) :
    (sendCommand ⟨t.writeOk, t.readOk, fun j => (t.readData j).set 0 v⟩ cmd len).writes
      = (sendCommand t cmd len).writes ∧
    (sendCommand ⟨t.writeOk, t.readOk, fun j => (t.readData j).set 0 v⟩ cmd len).sleeps
      = (sendCommand t cmd len).sleeps ∧
    (sendCommand ⟨t.writeOk, t.readOk, fun j => (t.readData j).set 0 v⟩ cmd len).result
      = replaceByte0 v (sendCommand t cmd len).result := by
  have hval : ∀ j, validateChecksum ((t.readData j).set 0 v) len
      = validateChecksum (t.readData j) len := fun j =>
    validateChecksum_congr len h2
      (fun i hi1 _ => getD_set_of_ne (t.readData j) v (show (0 : Nat) ≠ i from by omega) 0)
  unfold sendCommand
  dsimp only
  cases hout : (loopRun t.writeOk t.readOk 3 0).out with
  | writeFail => simp [replaceByte0]
  | exhausted => simp [replaceByte0]
  | success j =>
    dsimp only
    rw [hval j]
    by_cases hc : validateChecksum (t.readData j) len <;> simp [hc, replaceByte0]

/-- Witness for C10: with the count-3 transport and replacement byte 77
the exchange still succeeds with the same trace, the response differing
only at byte 0. -/
theorem sendCommand_ignores_start_marker_witness :
    (sendCommand ⟨tCount3.writeOk, tCount3.readOk,
        fun j => (tCount3.readData j).set 0 77⟩ [] 6).writes
      = (sendCommand tCount3 [] 6).writes ∧
    (sendCommand ⟨tCount3.writeOk, tCount3.readOk,
        fun j => (tCount3.readData j).set 0 77⟩ [] 6).sleeps
      = (sendCommand tCount3 [] 6).sleeps ∧
    (sendCommand ⟨tCount3.writeOk, tCount3.readOk,
        fun j => (tCount3.readData j).set 0 77⟩ [] 6).result
      = replaceByte0 77 (sendCommand tCount3 [] 6).result :=
  sendCommand_ignores_start_marker tCount3 [] 77 6 (by decide)
